import Mathlib

/-!
Shallow embedding of the XSIAMDataMetrics health-monitoring scripts
(`CheckDataSrouceHealthDataset.py` and `GetDataSourceHealthTrends.py`).

Python floats are modelled as exact rationals (ℚ); Unix timestamps as ℤ.
The external query transport (`demisto.executeCommand`) is modelled by the
`UpstreamResult` type: a successful call carries the list of result rows,
an error-typed entry or a raised exception are the two failure shapes the
scripts distinguish.  The XQL clauses written inside the scripts
(`filter`, `sort`, `comp max`, `alter`) are embedded as the corresponding
list operations on the result rows.
-/

namespace XSIAM

/-- Outcome of one `demisto.executeCommand('xdr-xql-generic-query', ...)`
round trip: `failure` is a raised exception (caught by the scripts with
`except`), `errorEntry` is a result whose `Type` is the error entry type,
and `ok` carries `Contents.results`. -/
inductive UpstreamResult (α : Type) : Type where
  | failure (msg : String)
  | errorEntry (contents : String)
  | ok (results : α)
deriving DecidableEq

/-- One row of the `custom.data_source_health` dataset as returned by the
XQL queries in `CheckDataSrouceHealthDataset.py` (the `fields` clause of
`check_health_dataset`).  Fields that the Python reads through
`row.get(..., default)` and that may be absent are `Option`; `hours_silent`
and `check_time` are the columns the XQL engine itself filters/aggregates
on and are modelled as present. -/
structure HealthRow : Type where
  dataset_name : Option String
  last_seen_time : Option Int
  hours_silent : ℚ
  severity : Option String
  event_count_last_hour : Option Int
  status : Option String
  check_time : Int
deriving DecidableEq

/-- The dictionary built for each surviving row by `check_health_dataset`
(the strftime-formatted display strings `last_seen` / `last_check` are
rendering of `last_seen_timestamp` / `check_time` and are not modelled
separately). -/
structure SilentDatasetReport : Type where
  dataset : Option String
  last_seen_timestamp : Int
  hours_silent : ℚ
  severity : String
  event_count : Int
  status : String
deriving DecidableEq

/-- Projection of one query row into its report dictionary, with the
`.get` sentinel defaults of `check_health_dataset` (`0` for missing
timestamps and counts, `"Unknown"` for missing severity/status). -/
def toReport (row : HealthRow) : SilentDatasetReport :=
  { dataset := row.dataset_name
    last_seen_timestamp := row.last_seen_time.getD 0
    hours_silent := row.hours_silent
    severity := row.severity.getD "Unknown"
    event_count := row.event_count_last_hour.getD 0
    status := row.status.getD "Unknown" }

/-- Modelled from the spec: the external XQL engine's
`sort hours_silent desc` clause, which is not repository code.  Following
the spec ("sorts the result descending by hours_silent; ties: stable,
input order preserved") it is a stable descending sort, here realised as
stable insertion: `insertDesc` places `x` before the first element whose
`hours_silent` does not exceed `x`'s. -/
def insertDesc (x : HealthRow) : List HealthRow → List HealthRow
  | [] => [x]
  | y :: rest =>
      if y.hours_silent ≤ x.hours_silent then x :: y :: rest
      else y :: insertDesc x rest

/-- Modelled from the spec: stable descending sort on `hours_silent`
(see `insertDesc`). -/
def sortSilentDesc : List HealthRow → List HealthRow
  | [] => []
  | x :: rest => insertDesc x (sortSilentDesc rest)

/-- `check_health_dataset` on a successfully returned row list: the XQL
query filters `hours_silent >= threshold_hours` and sorts descending by
`hours_silent`; the Python loop then projects each row into its report
dictionary in order. -/
def check_health_dataset (threshold_hours : ℚ) (query_results : List HealthRow) :
    List SilentDatasetReport :=
  (sortSilentDesc (query_results.filter
      (fun r => threshold_hours ≤ r.hours_silent))).map toReport

/-- `check_health_dataset` with its upstream error handling: an empty or
error-typed result and a raised exception both end in `return_error`. -/
def check_health_dataset_run (threshold_hours : ℚ)
    (q : UpstreamResult (List HealthRow)) : Except String (List SilentDatasetReport) :=
  match q with
  | .failure msg => .error ("Error checking health dataset: " ++ msg)
  | .errorEntry contents => .error ("Failed to query health dataset: " ++ contents)
  | .ok rows => .ok (check_health_dataset threshold_hours rows)

/-- The dictionary returned by `verify_dataset_freshness`. -/
structure FreshnessVerdict : Type where
  is_fresh : Bool
  minutes_old : ℚ
  last_update : Option Int
deriving DecidableEq

/-- The `comp max(check_time) as latest_check` aggregation of the
freshness query: `none` on an empty window (the XQL `comp` then yields no
result row, the script's `if data:` branch is not taken). -/
def latestCheck : List HealthRow → Option Int
  | [] => none
  | r :: rest =>
      some (match latestCheck rest with
            | none => r.check_time
            | some m => max r.check_time m)

/-- `verify_dataset_freshness`, parameterised by the engine's
`current_time()` (`now`, in Unix seconds as a rational) and the outcome of
the freshness query over the 2h window.  The query computes
`minutes_old = (current_time() - latest_check) / 60`; the script returns
the conservative `{is_fresh: False, minutes_old: 999, last_update: None}`
verdict on an error-typed result, an empty window, or any exception. -/
def verify_dataset_freshness (now : ℚ) (q : UpstreamResult (List HealthRow)) :
    FreshnessVerdict :=
  match q with
  | .failure _ => ⟨false, 999, none⟩
  | .errorEntry _ => ⟨false, 999, none⟩
  | .ok window =>
      match latestCheck window with
      | none => ⟨false, 999, none⟩
      | some latest =>
          ⟨decide ((now - (latest : ℚ)) / 60 < 35), (now - (latest : ℚ)) / 60, some latest⟩

/-- The machine-readable payload of `CheckDataSourceHealthDataset.main`. -/
structure MainOutput : Type where
  silentDataSources : List SilentDatasetReport
  datasetFreshness : FreshnessVerdict
deriving DecidableEq

/-- `CheckDataSourceHealthDataset.main`: verify freshness first; if the
verdict is not fresh, `return_error` with a message naming the staleness
age and stop; otherwise run the silent-source detection and return both
payloads. -/
def check_main (now : ℚ) (freshQ healthQ : UpstreamResult (List HealthRow))
    (threshold_hours : ℚ) : Except String MainOutput :=
  let freshness := verify_dataset_freshness now freshQ
  if freshness.is_fresh then
    match check_health_dataset_run threshold_hours healthQ with
    | .error e => .error e
    | .ok reports => .ok ⟨reports, freshness⟩
  else
    .error ("Health dataset is stale. Last update was " ++
      toString freshness.minutes_old ++ " minutes ago")

/-- One row of the `stats ... by hour_bucket, dataset_name` query of
`GetDataSourceHealthTrends.py`.  The Python reads `dataset_name` through
`row.get` (so it may be absent) and `avg_hours_silent` through direct
indexing; the remaining aggregates are carried through into
`raw_trends`. -/
structure TrendRow : Type where
  hour_bucket : Int
  dataset_name : Option String
  avg_hours_silent : ℚ
  max_hours_silent : ℚ
  check_count : Int
  silent_count : Int
  silent_percentage : ℚ
deriving DecidableEq

/-- One entry of `trending_worse` / `trending_better`. -/
structure TrendEntry : Type where
  dataset : Option String
  recent_avg_silent : ℚ
  older_avg_silent : ℚ
  change_percent : ℚ
deriving DecidableEq

/-- Round-half-to-even to an integer, the rounding mode of Python's
built-in `round`. -/
def roundHalfToEven (x : ℚ) : ℤ :=
  let f := Int.floor x
  let r := x - (f : ℚ)
  if r < 1 / 2 then f
  else if 1 / 2 < r then f + 1
  else if f % 2 = 0 then f else f + 1

/-- Python's `round(x, ndigits)` on an exact rational. -/
def pyRound (ndigits : ℕ) (x : ℚ) : ℚ :=
  (roundHalfToEven (x * 10 ^ ndigits) : ℚ) / 10 ^ ndigits

/-- Append `row` to its dataset's group, or open a new group at the end:
one step of the insertion-ordered grouping a Python `dict` performs in
`get_health_trends`. -/
def addRow (row : TrendRow) : List (Option String × List TrendRow) →
    List (Option String × List TrendRow)
  | [] => [(row.dataset_name, [row])]
  | (k, ts) :: rest =>
      if k = row.dataset_name then (k, ts ++ [row]) :: rest
      else (k, ts) :: addRow row rest

/-- The `dataset_trends` dictionary of `get_health_trends`: rows grouped
by `dataset_name`, groups in first-occurrence order, rows of a group in
input order. -/
def groupByDataset (rows : List TrendRow) : List (Option String × List TrendRow) :=
  rows.foldl (fun acc row => addRow row acc) []

/-- `recent_avg`: mean of `avg_hours_silent` over `trends[-3:]`, divided
by `min(3, len(trends))` exactly as the script writes it. -/
def recentAvg (trends : List TrendRow) : ℚ :=
  ((trends.drop (trends.length - 3)).map TrendRow.avg_hours_silent).sum /
    ((min 3 trends.length : ℕ) : ℚ)

/-- `older_avg`: mean of `avg_hours_silent` over `trends[:-3]`, divided by
`max(1, len(trends) - 3)` (in Python's integers; the subtraction is
clamped through the `max`, so ℕ subtraction agrees with it). -/
def olderAvg (trends : List TrendRow) : ℚ :=
  ((trends.take (trends.length - 3)).map TrendRow.avg_hours_silent).sum /
    ((max 1 (trends.length - 3) : ℕ) : ℚ)

/-- Contribution of one dataset group to the two trending lists. -/
inductive Contribution : Type where
  | stable
  | worse (e : TrendEntry)
  | better (e : TrendEntry)
deriving DecidableEq

/-- The per-dataset body of the `for ds_name, trends in dataset_trends`
loop.  A dataset with fewer than 2 buckets is skipped.  Python evaluates
the branch condition first and only then the dictionary literal, whose
`change_percent` division raises `ZeroDivisionError` when `older_avg` is
zero (`older_avg` is a float, `0/0.0` is an error, not infinity); the
raise is modelled as the `Except` error that the function-level `except`
handler turns into `return_error`. -/
def classifyDataset (ds : Option String) (trends : List TrendRow) :
    Except String Contribution :=
  if 2 ≤ trends.length then
    let recent_avg := recentAvg trends
    let older_avg := olderAvg trends
    if older_avg * 1.5 < recent_avg then
      if older_avg = 0 then .error "float division by zero"
      else .ok (.worse ⟨ds, pyRound 2 recent_avg, pyRound 2 older_avg,
        pyRound 1 ((recent_avg - older_avg) / older_avg * 100)⟩)
    else if recent_avg < older_avg * 0.5 then
      if older_avg = 0 then .error "float division by zero"
      else .ok (.better ⟨ds, pyRound 2 recent_avg, pyRound 2 older_avg,
        pyRound 1 ((recent_avg - older_avg) / older_avg * 100)⟩)
    else .ok .stable
  else .ok .stable

/-- The whole classification loop: visits the groups in dictionary order,
collecting the worse/better entries in that order; a raised
`ZeroDivisionError` aborts the loop (and with it the whole call). -/
def classifyAll : List (Option String × List TrendRow) →
    Except String (List TrendEntry × List TrendEntry)
  | [] => .ok ([], [])
  | (ds, trends) :: rest =>
      match classifyDataset ds trends with
      | .error e => .error e
      | .ok c =>
          match classifyAll rest with
          | .error e => .error e
          | .ok (w, b) =>
              match c with
              | .stable => .ok (w, b)
              | .worse e => .ok (e :: w, b)
              | .better e => .ok (w, e :: b)

/-- The dictionary returned by `get_health_trends`. -/
structure TrendsOutput : Type where
  raw_trends : List TrendRow
  trending_worse : List TrendEntry
  trending_better : List TrendEntry
  dataset_count : ℕ
deriving DecidableEq

/-- `get_health_trends` on the outcome of its stats query (the
`dataset_name` and `timeframe_hours` parameters only shape the query text
sent upstream, so here they are absorbed into the query outcome `q`).
Error-typed results go to `return_error` directly; a `ZeroDivisionError`
inside the loop is caught by the `except` clause and also ends in
`return_error`. -/
def get_health_trends (q : UpstreamResult (List TrendRow)) :
    Except String TrendsOutput :=
  match q with
  | .failure msg => .error ("Error analyzing trends: " ++ msg)
  | .errorEntry contents => .error ("Failed to get trends: " ++ contents)
  | .ok trend_data =>
      let dataset_trends := groupByDataset trend_data
      match classifyAll dataset_trends with
      | .error e => .error ("Error analyzing trends: " ++ e)
      | .ok (w, b) => .ok ⟨trend_data, w, b, dataset_trends.length⟩

/-! Concrete inputs used by witnesses and counterexamples. -/

/-- Example health row for dataset `a`: 5 hours silent, checked at 100. -/
def exRowA : HealthRow := ⟨some "a", some 10, 5, some "High", some 3, some "Silent", 100⟩

/-- Example health row for dataset `b`: 2 hours silent, checked at 200. -/
def exRowB : HealthRow := ⟨some "b", none, 2, none, none, none, 200⟩

/-- Example health row for dataset `c`: also 5 hours silent (a tie with
`exRowA`), checked at 50. -/
def exRowC : HealthRow := ⟨some "c", some 3, 5, some "Low", some 7, some "Silent", 50⟩

/-- Shorthand for a trend row of one dataset and hour bucket. -/
def mkTrendRow (ds : String) (hb : Int) (avg : ℚ) : TrendRow :=
  ⟨hb, some ds, avg, avg, 1, 1, 100⟩

/-- Dataset `d` with four hour buckets averaging [3, 10, 10, 10]:
`older_avg = 3`, `recent_avg = 10`, an exact change of 700/3 percent. -/
def c2Rows : List TrendRow :=
  [mkTrendRow "d" 0 3, mkTrendRow "d" 1 10, mkTrendRow "d" 2 10, mkTrendRow "d" 3 10]

/-- Dataset `w` with buckets [10, 15.0001, 15.0001, 15.0001]:
`older_avg = 10`, `recent_avg = 15.0001`, just above the 1.5 factor. -/
def boundaryWorseRows : List TrendRow :=
  [mkTrendRow "w" 0 10, mkTrendRow "w" 1 (150001/10000),
   mkTrendRow "w" 2 (150001/10000), mkTrendRow "w" 3 (150001/10000)]

/-- Dataset `w` with buckets [10, 14.999, 14.999, 14.999]:
`older_avg = 10`, `recent_avg = 14.999`, just below the 1.5 factor. -/
def boundaryStableRows : List TrendRow :=
  [mkTrendRow "w" 0 10, mkTrendRow "w" 1 (14999/1000),
   mkTrendRow "w" 2 (14999/1000), mkTrendRow "w" 3 (14999/1000)]

/-- Dataset `r` with only two hour buckets and positive averages:
`older_avg` is an empty mean, i.e. 0. -/
def c3Rows : List TrendRow := [mkTrendRow "r" 0 2, mkTrendRow "r" 1 4]

/-- Dataset `q` with two hour buckets of average 1 each, again making
`older_avg = 0` with a positive `recent_avg`. -/
def c4Rows : List TrendRow := [mkTrendRow "q" 0 1, mkTrendRow "q" 1 1]

/-- A single-bucket dataset `solo`. -/
def soloRows : List TrendRow := [mkTrendRow "solo" 0 5]

/-- Dataset `up`, worsening: buckets [1, 9, 9, 9]. -/
def upRows : List TrendRow :=
  [mkTrendRow "up" 0 1, mkTrendRow "up" 1 9, mkTrendRow "up" 2 9, mkTrendRow "up" 3 9]

/-- Dataset `down`, improving: buckets [10, 1, 1, 1]. -/
def downRows : List TrendRow :=
  [mkTrendRow "down" 0 10, mkTrendRow "down" 1 1, mkTrendRow "down" 2 1,
   mkTrendRow "down" 3 1]

/-- Two datasets: `up` worsens, `down` improves. -/
def c10Rows : List TrendRow := upRows ++ downRows

/-! Lemmas about the stable descending sort. -/

theorem perm_insertDesc (x : HealthRow) (l : List HealthRow) :
    (insertDesc x l).Perm (x :: l) := by
  induction l with
  | nil => simp [insertDesc]
  | cons y rest ih =>
      by_cases h : y.hours_silent ≤ x.hours_silent
      · simp [insertDesc, h]
      · simp only [insertDesc, if_neg h]
        exact (ih.cons y).trans (List.Perm.swap x y rest)

theorem sortSilentDesc_perm (l : List HealthRow) : (sortSilentDesc l).Perm l := by
  induction l with
  | nil => simp [sortSilentDesc]
  | cons x rest ih => exact (perm_insertDesc x _).trans (ih.cons x)

theorem pairwise_insertDesc (x : HealthRow) (l : List HealthRow)
    (h : l.Pairwise (fun a b => b.hours_silent ≤ a.hours_silent)) :
    (insertDesc x l).Pairwise (fun a b => b.hours_silent ≤ a.hours_silent) := by
  induction l with
  | nil => simp [insertDesc]
  | cons y rest ih =>
      rcases List.pairwise_cons.mp h with ⟨hy, hrest⟩
      by_cases hyx : y.hours_silent ≤ x.hours_silent
      · simp only [insertDesc, if_pos hyx]
        refine List.pairwise_cons.mpr ⟨?_, h⟩
        intro z hz
        rcases List.mem_cons.mp hz with rfl | hz2
        · exact hyx
        · exact le_trans (hy z hz2) hyx
      · simp only [insertDesc, if_neg hyx]
        refine List.pairwise_cons.mpr ⟨?_, ih hrest⟩
        intro z hz
        rcases List.mem_cons.mp ((perm_insertDesc x rest).mem_iff.mp hz) with rfl | hz3
        · exact le_of_lt (lt_of_not_le hyx)
        · exact hy z hz3

theorem sortSilentDesc_sorted (l : List HealthRow) :
    (sortSilentDesc l).Pairwise (fun a b => b.hours_silent ≤ a.hours_silent) := by
  induction l with
  | nil => simp [sortSilentDesc]
  | cons x rest ih => exact pairwise_insertDesc x _ ih

theorem filter_insertDesc (v : ℚ) (x : HealthRow) (l : List HealthRow) :
    (insertDesc x l).filter (fun r => r.hours_silent = v) =
      (x :: l).filter (fun r => r.hours_silent = v) := by
  induction l with
  | nil => rfl
  | cons y rest ih =>
      by_cases hyx : y.hours_silent ≤ x.hours_silent
      · simp [insertDesc, hyx]
      · simp only [insertDesc, if_neg hyx]
        by_cases hx : x.hours_silent = v
        · have hyv : ¬ y.hours_silent = v := fun hyv => hyx (le_of_eq (hyv.trans hx.symm))
          simp [List.filter_cons, ih, hx, hyv]
        · simp [List.filter_cons, ih, hx]

theorem filter_sortSilentDesc (v : ℚ) (l : List HealthRow) :
    (sortSilentDesc l).filter (fun r => r.hours_silent = v) =
      l.filter (fun r => r.hours_silent = v) := by
  induction l with
  | nil => rfl
  | cons x rest ih =>
      show (insertDesc x (sortSilentDesc rest)).filter _ = _
      rw [filter_insertDesc, List.filter_cons, List.filter_cons, ih]

theorem filter_map_toReport (v : ℚ) (l : List HealthRow) :
    (l.map toReport).filter (fun rep => rep.hours_silent = v) =
      (l.filter (fun r => r.hours_silent = v)).map toReport := by
  induction l with
  | nil => rfl
  | cons r rest ih =>
      by_cases h : r.hours_silent = v <;>
        simp [List.filter_cons, toReport, h, ih]

/-! Lemmas about the dataset grouping. -/

theorem addRow_key_mem (row : TrendRow) (acc : List (Option String × List TrendRow))
    (k : Option String) (hk : k ∈ (addRow row acc).map Prod.fst) :
    k ∈ acc.map Prod.fst ∨ k = row.dataset_name := by
  induction acc with
  | nil =>
      simp only [addRow, List.map_cons, List.map_nil, List.mem_cons,
        List.not_mem_nil, or_false] at hk
      exact .inr hk
  | cons p rest ih =>
      obtain ⟨k0, ts⟩ := p
      by_cases h : k0 = row.dataset_name
      · rw [addRow, if_pos h, List.map_cons] at hk
        rw [List.map_cons]
        exact .inl hk
      · rw [addRow, if_neg h, List.map_cons] at hk
        rw [List.map_cons]
        rcases List.mem_cons.mp hk with rfl | hk2
        · exact .inl (List.mem_cons_self _ _)
        · rcases ih hk2 with h1 | h1
          · exact .inl (List.mem_cons_of_mem _ h1)
          · exact .inr h1

theorem addRow_keys (row : TrendRow) (acc : List (Option String × List TrendRow)) :
    (addRow row acc).map Prod.fst = acc.map Prod.fst ∨
    ((addRow row acc).map Prod.fst = acc.map Prod.fst ++ [row.dataset_name] ∧
      row.dataset_name ∉ acc.map Prod.fst) := by
  induction acc with
  | nil => exact .inr ⟨rfl, by simp⟩
  | cons p rest ih =>
      obtain ⟨k0, ts⟩ := p
      by_cases h : k0 = row.dataset_name
      · left
        rw [addRow, if_pos h]
        simp
      · rcases ih with h1 | ⟨h1, h2⟩
        · left
          rw [addRow, if_neg h]
          simp [h1]
        · right
          refine ⟨?_, ?_⟩
          · rw [addRow, if_neg h]
            simp [h1]
          · intro hcon
            rw [List.map_cons] at hcon
            rcases List.mem_cons.mp hcon with h3 | h3
            · exact h h3.symm
            · exact h2 h3

theorem addRow_keys_nodup (row : TrendRow) (acc : List (Option String × List TrendRow))
    (h : (acc.map Prod.fst).Nodup) : ((addRow row acc).map Prod.fst).Nodup := by
  rcases addRow_keys row acc with he | ⟨he, hn⟩
  · rw [he]; exact h
  · rw [he]
    refine List.Nodup.append h (List.nodup_singleton _) ?_
    intro a ha hb
    rw [List.mem_singleton] at hb
    exact hn (hb ▸ ha)

theorem groupBy_go_keys_nodup (rows : List TrendRow)
    (acc : List (Option String × List TrendRow)) (h : (acc.map Prod.fst).Nodup) :
    ((rows.foldl (fun a row => addRow row a) acc).map Prod.fst).Nodup := by
  induction rows generalizing acc with
  | nil => exact h
  | cons row rest ih =>
      simp only [List.foldl_cons]
      exact ih (addRow row acc) (addRow_keys_nodup row acc h)

theorem groupByDataset_keys_nodup (rows : List TrendRow) :
    ((groupByDataset rows).map Prod.fst).Nodup :=
  groupBy_go_keys_nodup rows [] (by simp)

theorem groupBy_go_key_trace (rows : List TrendRow)
    (acc : List (Option String × List TrendRow)) (p : Option String × List TrendRow)
    (hp : p ∈ rows.foldl (fun a row => addRow row a) acc) :
    p.1 ∈ acc.map Prod.fst ∨ ∃ r ∈ rows, p.1 = r.dataset_name := by
  induction rows generalizing acc with
  | nil => exact .inl (List.mem_map_of_mem _ hp)
  | cons row rest ih =>
      simp only [List.foldl_cons] at hp
      rcases ih (addRow row acc) hp with hk | ⟨r, hr, he⟩
      · rcases addRow_key_mem row acc p.1 hk with hk2 | hk2
        · exact .inl hk2
        · exact .inr ⟨row, List.mem_cons_self _ _, hk2⟩
      · exact .inr ⟨r, List.mem_cons_of_mem _ hr, he⟩

theorem groupByDataset_key_trace (rows : List TrendRow)
    (p : Option String × List TrendRow) (hp : p ∈ groupByDataset rows) :
    ∃ r ∈ rows, p.1 = r.dataset_name := by
  rcases groupBy_go_key_trace rows [] p hp with h | h
  · simp at h
  · exact h

theorem nodup_keys_snd_eq {l : List (Option String × List TrendRow)}
    (h : (l.map Prod.fst).Nodup) {k : Option String} {a b : List TrendRow}
    (ha : (k, a) ∈ l) (hb : (k, b) ∈ l) : a = b := by
  induction l with
  | nil => simp at ha
  | cons p rest ih =>
      simp only [List.map_cons, List.nodup_cons] at h
      rcases List.mem_cons.mp ha with rfl | ha2
      · rcases List.mem_cons.mp hb with hb1 | hb2
        · exact congrArg Prod.snd hb1.symm
        · exact absurd (List.mem_map_of_mem Prod.fst hb2) h.1
      · rcases List.mem_cons.mp hb with rfl | hb2
        · exact absurd (List.mem_map_of_mem Prod.fst ha2) h.1
        · exact ih h.2 ha2 hb2

/-! Lemmas about the classification loop. -/

theorem classifyDataset_entry (ds : Option String) (trends : List TrendRow)
    (e : TrendEntry) (h : classifyDataset ds trends = .ok (.worse e) ∨
      classifyDataset ds trends = .ok (.better e)) :
    e.dataset = ds ∧ 2 ≤ trends.length := by
  by_cases h2 : 2 ≤ trends.length
  · simp only [classifyDataset, if_pos h2] at h
    by_cases hw : olderAvg trends * 1.5 < recentAvg trends
    · simp only [if_pos hw] at h
      by_cases h0 : olderAvg trends = 0
      · simp [if_pos h0] at h
      · simp only [if_neg h0] at h
        rcases h with h | h
        · simp only [Except.ok.injEq, Contribution.worse.injEq] at h
          exact ⟨by rw [← h], h2⟩
        · simp at h
    · simp only [if_neg hw] at h
      by_cases hb : recentAvg trends < olderAvg trends * 0.5
      · simp only [if_pos hb] at h
        by_cases h0 : olderAvg trends = 0
        · simp [if_pos h0] at h
        · simp only [if_neg h0] at h
          rcases h with h | h
          · simp at h
          · simp only [Except.ok.injEq, Contribution.better.injEq] at h
            exact ⟨by rw [← h], h2⟩
      · simp only [if_neg hb] at h
        rcases h with h | h <;> simp at h
  · simp only [classifyDataset, if_neg h2] at h
    rcases h with h | h <;> simp at h

theorem classifyAll_cons_inv (ds : Option String) (trends : List TrendRow)
    (rest : List (Option String × List TrendRow)) (w b : List TrendEntry)
    (h : classifyAll ((ds, trends) :: rest) = .ok (w, b)) :
    ∃ c w2 b2, classifyDataset ds trends = .ok c ∧ classifyAll rest = .ok (w2, b2) ∧
      ((c = .stable ∧ w = w2 ∧ b = b2) ∨
       (∃ e, c = .worse e ∧ w = e :: w2 ∧ b = b2) ∨
       (∃ e, c = .better e ∧ w = w2 ∧ b = e :: b2)) := by
  cases hc : classifyDataset ds trends with
  | error msg => simp [classifyAll, hc] at h
  | ok c =>
      cases hr : classifyAll rest with
      | error msg => simp [classifyAll, hc, hr] at h
      | ok p =>
          obtain ⟨w2, b2⟩ := p
          refine ⟨c, w2, b2, rfl, rfl, ?_⟩
          cases c with
          | stable =>
              simp only [classifyAll, hc, hr, Except.ok.injEq, Prod.mk.injEq] at h
              exact .inl ⟨rfl, h.1.symm, h.2.symm⟩
          | worse e =>
              simp only [classifyAll, hc, hr, Except.ok.injEq, Prod.mk.injEq] at h
              exact .inr (.inl ⟨e, rfl, h.1.symm, h.2.symm⟩)
          | better e =>
              simp only [classifyAll, hc, hr, Except.ok.injEq, Prod.mk.injEq] at h
              exact .inr (.inr ⟨e, rfl, h.1.symm, h.2.symm⟩)

theorem classifyAll_entry_trace (gs : List (Option String × List TrendRow))
    (w b : List TrendEntry) (h : classifyAll gs = .ok (w, b)) :
    ∀ e, (e ∈ w ∨ e ∈ b) → ∃ p ∈ gs, e.dataset = p.1 ∧ 2 ≤ p.2.length := by
  induction gs generalizing w b with
  | nil =>
      simp only [classifyAll, Except.ok.injEq, Prod.mk.injEq] at h
      intro e he
      rcases he with he | he
      · rw [← h.1] at he; simp at he
      · rw [← h.2] at he; simp at he
  | cons p rest ih =>
      obtain ⟨ds, trends⟩ := p
      obtain ⟨c, w2, b2, hc, hr, hcase⟩ := classifyAll_cons_inv ds trends rest w b h
      intro e he
      rcases hcase with ⟨_, hw, hb⟩ | ⟨e0, hce, hw, hb⟩ | ⟨e0, hce, hw, hb⟩
      · rw [hw, hb] at he
        obtain ⟨q, hq, hqe⟩ := ih w2 b2 hr e he
        exact ⟨q, List.mem_cons_of_mem _ hq, hqe⟩
      · rw [hw, hb] at he
        rcases he with he | he
        · rcases List.mem_cons.mp he with rfl | he2
          · obtain ⟨hed, hlen⟩ :=
              classifyDataset_entry ds trends e (.inl (hce ▸ hc))
            exact ⟨(ds, trends), List.mem_cons_self _ _, hed, hlen⟩
          · obtain ⟨q, hq, hqe⟩ := ih w2 b2 hr e (.inl he2)
            exact ⟨q, List.mem_cons_of_mem _ hq, hqe⟩
        · obtain ⟨q, hq, hqe⟩ := ih w2 b2 hr e (.inr he)
          exact ⟨q, List.mem_cons_of_mem _ hq, hqe⟩
      · rw [hw, hb] at he
        rcases he with he | he
        · obtain ⟨q, hq, hqe⟩ := ih w2 b2 hr e (.inl he)
          exact ⟨q, List.mem_cons_of_mem _ hq, hqe⟩
        · rcases List.mem_cons.mp he with rfl | he2
          · obtain ⟨hed, hlen⟩ :=
              classifyDataset_entry ds trends e (.inr (hce ▸ hc))
            exact ⟨(ds, trends), List.mem_cons_self _ _, hed, hlen⟩
          · obtain ⟨q, hq, hqe⟩ := ih w2 b2 hr e (.inr he2)
            exact ⟨q, List.mem_cons_of_mem _ hq, hqe⟩

theorem classifyAll_dataset_mem_keys (gs : List (Option String × List TrendRow))
    (w b : List TrendEntry) (h : classifyAll gs = .ok (w, b)) (x : Option String)
    (hx : x ∈ w.map TrendEntry.dataset ++ b.map TrendEntry.dataset) :
    x ∈ gs.map Prod.fst := by
  rcases List.mem_append.mp hx with hx2 | hx2
  · obtain ⟨e, he, rfl⟩ := List.mem_map.mp hx2
    obtain ⟨p, hp, hpd, _⟩ := classifyAll_entry_trace gs w b h e (.inl he)
    exact hpd ▸ List.mem_map_of_mem _ hp
  · obtain ⟨e, he, rfl⟩ := List.mem_map.mp hx2
    obtain ⟨p, hp, hpd, _⟩ := classifyAll_entry_trace gs w b h e (.inr he)
    exact hpd ▸ List.mem_map_of_mem _ hp

theorem classifyAll_keys_nodup (gs : List (Option String × List TrendRow))
    (hnd : (gs.map Prod.fst).Nodup) (w b : List TrendEntry)
    (h : classifyAll gs = .ok (w, b)) :
    (w.map TrendEntry.dataset ++ b.map TrendEntry.dataset).Nodup := by
  induction gs generalizing w b with
  | nil =>
      simp only [classifyAll, Except.ok.injEq, Prod.mk.injEq] at h
      rw [← h.1, ← h.2]
      simp
  | cons p rest ih =>
      obtain ⟨ds, trends⟩ := p
      obtain ⟨c, w2, b2, hc, hr, hcase⟩ := classifyAll_cons_inv ds trends rest w b h
      simp only [List.map_cons, List.nodup_cons] at hnd
      obtain ⟨hds, hnd2⟩ := hnd
      have ihr := ih hnd2 w2 b2 hr
      rcases hcase with ⟨_, hw, hb⟩ | ⟨e0, hce, hw, hb⟩ | ⟨e0, hce, hw, hb⟩
      · rw [hw, hb]
        exact ihr
      · have he0 : e0.dataset = ds :=
          (classifyDataset_entry ds trends e0 (.inl (hce ▸ hc))).1
        rw [hw, hb]
        simp only [List.map_cons, List.cons_append, List.nodup_cons]
        refine ⟨?_, ihr⟩
        intro hmem
        exact hds (he0 ▸ classifyAll_dataset_mem_keys rest w2 b2 hr e0.dataset hmem)
      · have he0 : e0.dataset = ds :=
          (classifyDataset_entry ds trends e0 (.inr (hce ▸ hc))).1
        rw [hw, hb]
        have hnodup : (e0.dataset :: (w2.map TrendEntry.dataset ++
            b2.map TrendEntry.dataset)).Nodup := by
          rw [List.nodup_cons]
          refine ⟨?_, ihr⟩
          intro hmem
          exact hds (he0 ▸ classifyAll_dataset_mem_keys rest w2 b2 hr e0.dataset hmem)
        have hperm := (@List.perm_middle _ e0.dataset (w2.map TrendEntry.dataset)
          (b2.map TrendEntry.dataset)).symm
        simpa using hperm.nodup hnodup

theorem get_health_trends_inv (rows : List TrendRow) (out : TrendsOutput)
    (hok : get_health_trends (.ok rows) = .ok out) :
    classifyAll (groupByDataset rows) = .ok (out.trending_worse, out.trending_better) ∧
    out.raw_trends = rows ∧ out.dataset_count = (groupByDataset rows).length := by
  cases hc : classifyAll (groupByDataset rows) with
  | error e => simp [get_health_trends, hc] at hok
  | ok p =>
      obtain ⟨w, b⟩ := p
      simp only [get_health_trends, hc, Except.ok.injEq] at hok
      rw [← hok]
      exact ⟨rfl, rfl, rfl⟩

/-- C1: for every record list and every threshold_hours ≥ 0,
`check_health_dataset` returns exactly the reports of the records with
`hours_silent ≥ threshold_hours` (a permutation of their projections, one
report per surviving record), sorted descending by `hours_silent`, with
ties keeping input order (the sub-list at any fixed `hours_silent` value
is the input-order one); when no record crosses the threshold the result
is the empty list, not an error. -/
theorem C1_check_health_dataset_filter_sort (θ : ℚ) (rows : List HealthRow)
    (hθ : 0 ≤ θ) :
    (check_health_dataset θ rows).Perm
        ((rows.filter (fun r => θ ≤ r.hours_silent)).map toReport) ∧
    (check_health_dataset θ rows).Pairwise
        (fun a b => b.hours_silent ≤ a.hours_silent) ∧
    (∀ v : ℚ, (check_health_dataset θ rows).filter (fun rep => rep.hours_silent = v) =
        ((rows.filter (fun r => θ ≤ r.hours_silent)).filter
            (fun r => r.hours_silent = v)).map toReport) ∧
    ((∀ r ∈ rows, ¬ θ ≤ r.hours_silent) → check_health_dataset θ rows = []) := by
  refine ⟨?_, ?_, ?_, ?_⟩
  · exact (sortSilentDesc_perm _).map toReport
  · exact List.pairwise_map.mpr (sortSilentDesc_sorted _)
  · intro v
    unfold check_health_dataset
    rw [filter_map_toReport, filter_sortSilentDesc]
  · intro hall
    have h : rows.filter (fun r => θ ≤ r.hours_silent) = [] := by
      simp only [List.filter_eq_nil_iff, decide_eq_true_eq]
      exact hall
    simp [check_health_dataset, h, sortSilentDesc]

/-- Witness for C1 at `θ = 1` and rows `[exRowB, exRowA, exRowC]`. -/
theorem C1_witness :
    (0 : ℚ) ≤ 1 ∧
    ((check_health_dataset 1 [exRowB, exRowA, exRowC]).Perm
        (([exRowB, exRowA, exRowC].filter (fun r => (1 : ℚ) ≤ r.hours_silent)).map toReport) ∧
    (check_health_dataset 1 [exRowB, exRowA, exRowC]).Pairwise
        (fun a b => b.hours_silent ≤ a.hours_silent) ∧
    (∀ v : ℚ, (check_health_dataset 1 [exRowB, exRowA, exRowC]).filter
          (fun rep => rep.hours_silent = v) =
        (([exRowB, exRowA, exRowC].filter (fun r => (1 : ℚ) ≤ r.hours_silent)).filter
            (fun r => r.hours_silent = v)).map toReport) ∧
    ((∀ r ∈ [exRowB, exRowA, exRowC], ¬ (1 : ℚ) ≤ r.hours_silent) →
        check_health_dataset 1 [exRowB, exRowA, exRowC] = [])) :=
  ⟨by norm_num, C1_check_health_dataset_filter_sort 1 [exRowB, exRowA, exRowC] (by norm_num)⟩

/-- C5: `verify_dataset_freshness` never raises: a raised upstream
exception, an error-typed result, and an empty window all return the
conservative verdict `{is_fresh := false, minutes_old := 999,
last_update := none}`. -/
theorem C5_verify_dataset_freshness_conservative (now : ℚ) (msg contents : String) :
    verify_dataset_freshness now (.failure msg) = ⟨false, 999, none⟩ ∧
    verify_dataset_freshness now (.errorEntry contents) = ⟨false, 999, none⟩ ∧
    verify_dataset_freshness now (.ok []) = ⟨false, 999, none⟩ :=
  ⟨rfl, rfl, rfl⟩

theorem latestCheck_max (l : List HealthRow) (h : l ≠ []) :
    ∃ latest : ℤ, latestCheck l = some latest ∧
      (∀ s ∈ l, s.check_time ≤ latest) ∧ ∃ s ∈ l, s.check_time = latest := by
  induction l with
  | nil => exact absurd rfl h
  | cons r rest ih =>
      cases rest with
      | nil => exact ⟨r.check_time, rfl, by simp, ⟨r, by simp⟩⟩
      | cons y t =>
          obtain ⟨m, hm, hub, s, hs, hse⟩ := ih (by simp)
          refine ⟨max r.check_time m, ?_, ?_, ?_⟩
          · rw [latestCheck, hm]
          · intro z hz
            rcases List.mem_cons.mp hz with rfl | hz2
            · exact le_max_left _ _
            · exact le_trans (hub z hz2) (le_max_right _ _)
          · rcases max_choice r.check_time m with hc | hc
            · exact ⟨r, List.mem_cons_self _ _, hc.symm⟩
            · exact ⟨s, List.mem_cons_of_mem _ hs, hse.trans hc.symm⟩

/-- C6: on a non-empty freshness window, the verdict's `minutes_old` is
`(now - latest_check) / 60` for the maximum `check_time` of the window,
`last_update` is that maximum, and `is_fresh` is true iff
`minutes_old < 35`. -/
theorem C6_freshness_verdict (now : ℚ) (w : List HealthRow) (h : w ≠ []) :
    ∃ latest : ℤ,
      latestCheck w = some latest ∧
      (∀ s ∈ w, s.check_time ≤ latest) ∧
      (∃ s ∈ w, s.check_time = latest) ∧
      (verify_dataset_freshness now (.ok w)).minutes_old = (now - (latest : ℚ)) / 60 ∧
      ((verify_dataset_freshness now (.ok w)).is_fresh = true ↔
        (verify_dataset_freshness now (.ok w)).minutes_old < 35) ∧
      (verify_dataset_freshness now (.ok w)).last_update = some latest := by
  obtain ⟨latest, hl, hub, hmem⟩ := latestCheck_max w h
  refine ⟨latest, hl, hub, hmem, ?_, ?_, ?_⟩ <;>
    simp [verify_dataset_freshness, hl]

/-- Witness for C6 at `now = 100` and a two-row window. -/
theorem C6_witness :
    [exRowA, exRowB] ≠ ([] : List HealthRow) ∧
    ∃ latest : ℤ,
      latestCheck [exRowA, exRowB] = some latest ∧
      (∀ s ∈ [exRowA, exRowB], s.check_time ≤ latest) ∧
      (∃ s ∈ [exRowA, exRowB], s.check_time = latest) ∧
      (verify_dataset_freshness 100 (.ok [exRowA, exRowB])).minutes_old =
        (100 - (latest : ℚ)) / 60 ∧
      ((verify_dataset_freshness 100 (.ok [exRowA, exRowB])).is_fresh = true ↔
        (verify_dataset_freshness 100 (.ok [exRowA, exRowB])).minutes_old < 35) ∧
      (verify_dataset_freshness 100 (.ok [exRowA, exRowB])).last_update = some latest :=
  ⟨by simp, C6_freshness_verdict 100 [exRowA, exRowB] (by simp)⟩

/-- C7: whenever the freshness verdict is not fresh, `main` stops with the
explicit staleness error naming the verdict's age in minutes; no
silent-source report is produced (the result is the error, not an
output payload). -/
theorem C7_main_stale_hard_stop (now : ℚ)
    (freshQ healthQ : UpstreamResult (List HealthRow)) (θ : ℚ)
    (h : (verify_dataset_freshness now freshQ).is_fresh = false) :
    check_main now freshQ healthQ θ =
      .error ("Health dataset is stale. Last update was " ++
        toString (verify_dataset_freshness now freshQ).minutes_old ++ " minutes ago") := by
  simp [check_main, h]

/-- Witness for C7: at `now = 10000` the single check at time 100 is 165
minutes old, so the main flow errors out. -/
theorem C7_witness :
    (verify_dataset_freshness 10000 (.ok [exRowA])).is_fresh = false ∧
    check_main 10000 (.ok [exRowA]) (.ok [exRowA]) 1 =
      .error ("Health dataset is stale. Last update was " ++
        toString (verify_dataset_freshness 10000 (.ok [exRowA])).minutes_old ++
        " minutes ago") :=
  ⟨by norm_num [verify_dataset_freshness, latestCheck, exRowA],
   C7_main_stale_hard_stop 10000 (.ok [exRowA]) (.ok [exRowA]) 1
     (by norm_num [verify_dataset_freshness, latestCheck, exRowA])⟩

/-- C8: `get_health_trends` is deterministic: two invocations on the same
upstream query results yield identical outputs; it is a pure function of
the query outcome (the `dataset_name` / `timeframe_hours` parameters only
shape the query sent upstream) and mutates nothing. -/
theorem C8_get_health_trends_deterministic (q1 q2 : UpstreamResult (List TrendRow))
    (h : q1 = q2) : get_health_trends q1 = get_health_trends q2 := by
  rw [h]

/-- Witness for C8 on a concrete query outcome. -/
theorem C8_witness :
    (UpstreamResult.ok c10Rows) = (UpstreamResult.ok c10Rows) ∧
    get_health_trends (.ok c10Rows) = get_health_trends (.ok c10Rows) :=
  ⟨rfl, C8_get_health_trends_deterministic (.ok c10Rows) (.ok c10Rows) rfl⟩

/-! Evaluation lemmas on concrete inputs (ℚ arithmetic does not reduce by
`decide`, so these are established with `simp`/`norm_num`). -/

theorem pyRound_lt (nd : ℕ) (x : ℚ) (n : ℤ)
    (h1 : (n : ℚ) ≤ x * 10 ^ nd) (h2 : x * 10 ^ nd - n < 1/2) :
    pyRound nd x = (n : ℚ) / 10 ^ nd := by
  have hf : Int.floor (x * 10 ^ nd) = n := by
    rw [Int.floor_eq_iff]
    exact ⟨h1, by linarith⟩
  simp only [pyRound, roundHalfToEven, hf]
  rw [if_pos h2]

theorem ev_ra_c2 : recentAvg c2Rows = 10 := by
  simp [recentAvg, c2Rows, mkTrendRow]
  norm_num

theorem ev_oa_c2 : olderAvg c2Rows = 3 := by
  simp [olderAvg, c2Rows, mkTrendRow]

theorem ev_classify_c2 : classifyDataset (some "d") c2Rows =
    .ok (.worse ⟨some "d", 10, 3, 2333/10⟩) := by
  have h1 : pyRound 2 (10 : ℚ) = 10 := by
    rw [pyRound_lt 2 10 1000 (by norm_num) (by norm_num)]; norm_num
  have h2 : pyRound 2 (3 : ℚ) = 3 := by
    rw [pyRound_lt 2 3 300 (by norm_num) (by norm_num)]; norm_num
  have h3 : pyRound 1 ((10 - 3) / 3 * 100 : ℚ) = 2333/10 := by
    rw [pyRound_lt 1 ((10 - 3) / 3 * 100) 2333 (by norm_num) (by norm_num)]; norm_num
  have h3b : pyRound 1 ((700 : ℚ) / 3) = 2333/10 := by
    rw [pyRound_lt 1 ((700 : ℚ) / 3) 2333 (by norm_num) (by norm_num)]; norm_num
  simp only [classifyDataset]
  rw [if_pos (show 2 ≤ c2Rows.length by norm_num [c2Rows])]
  rw [ev_ra_c2, ev_oa_c2]
  norm_num [h1, h2, h3, h3b]

theorem ev_ra_bw : recentAvg boundaryWorseRows = 150001/10000 := by
  simp [recentAvg, boundaryWorseRows, mkTrendRow]
  norm_num

theorem ev_oa_bw : olderAvg boundaryWorseRows = 10 := by
  simp [olderAvg, boundaryWorseRows, mkTrendRow]

theorem ev_classify_bw : classifyDataset (some "w") boundaryWorseRows =
    .ok (.worse ⟨some "w", 15, 10, 50⟩) := by
  have h1 : pyRound 2 ((150001 : ℚ)/10000) = 15 := by
    rw [pyRound_lt 2 ((150001 : ℚ)/10000) 1500 (by norm_num) (by norm_num)]; norm_num
  have h2 : pyRound 2 (10 : ℚ) = 10 := by
    rw [pyRound_lt 2 10 1000 (by norm_num) (by norm_num)]; norm_num
  have h3 : pyRound 1 (((150001 : ℚ)/10000 - 10) / 10 * 100) = 50 := by
    rw [pyRound_lt 1 (((150001 : ℚ)/10000 - 10) / 10 * 100) 500
      (by norm_num) (by norm_num)]
    norm_num
  have h3b : pyRound 1 ((50001 : ℚ)/1000) = 50 := by
    rw [pyRound_lt 1 ((50001 : ℚ)/1000) 500 (by norm_num) (by norm_num)]; norm_num
  simp only [classifyDataset]
  rw [if_pos (show 2 ≤ boundaryWorseRows.length by norm_num [boundaryWorseRows])]
  rw [ev_ra_bw, ev_oa_bw]
  norm_num [h1, h2, h3, h3b]

theorem ev_ra_bs : recentAvg boundaryStableRows = 14999/1000 := by
  simp [recentAvg, boundaryStableRows, mkTrendRow]
  norm_num

theorem ev_oa_bs : olderAvg boundaryStableRows = 10 := by
  simp [olderAvg, boundaryStableRows, mkTrendRow]

theorem ev_classify_bs : classifyDataset (some "w") boundaryStableRows =
    .ok .stable := by
  simp only [classifyDataset]
  rw [if_pos (show 2 ≤ boundaryStableRows.length by norm_num [boundaryStableRows])]
  rw [ev_ra_bs, ev_oa_bs]
  norm_num

theorem ev_group_c4 : groupByDataset c4Rows = [(some "q", c4Rows)] := by
  simp [groupByDataset, c4Rows, mkTrendRow, addRow]

theorem ev_ra_c4 : recentAvg c4Rows = 1 := by
  simp [recentAvg, c4Rows, mkTrendRow]

theorem ev_oa_c4 : olderAvg c4Rows = 0 := by
  simp [olderAvg, c4Rows, mkTrendRow]

theorem ev_classify_c4 : classifyDataset (some "q") c4Rows =
    .error "float division by zero" := by
  simp only [classifyDataset]
  rw [if_pos (show 2 ≤ c4Rows.length by norm_num [c4Rows])]
  rw [ev_ra_c4, ev_oa_c4]
  norm_num

theorem ev_trends_c4 : get_health_trends (.ok c4Rows) =
    .error "Error analyzing trends: float division by zero" := by
  simp only [get_health_trends, ev_group_c4]
  simp [classifyAll, ev_classify_c4]

theorem ev_group_c3 : groupByDataset c3Rows = [(some "r", c3Rows)] := by
  simp [groupByDataset, c3Rows, mkTrendRow, addRow]

theorem ev_ra_c3 : recentAvg c3Rows = 3 := by
  simp [recentAvg, c3Rows, mkTrendRow]
  norm_num

theorem ev_oa_c3 : olderAvg c3Rows = 0 := by
  simp [olderAvg, c3Rows, mkTrendRow]

theorem ev_classify_c3 : classifyDataset (some "r") c3Rows =
    .error "float division by zero" := by
  simp only [classifyDataset]
  rw [if_pos (show 2 ≤ c3Rows.length by norm_num [c3Rows])]
  rw [ev_ra_c3, ev_oa_c3]
  norm_num

theorem ev_trends_c3 : get_health_trends (.ok c3Rows) =
    .error "Error analyzing trends: float division by zero" := by
  simp only [get_health_trends, ev_group_c3]
  simp [classifyAll, ev_classify_c3]

theorem ev_group_solo : groupByDataset soloRows = [(some "solo", soloRows)] := by
  simp [groupByDataset, soloRows, mkTrendRow, addRow]

theorem ev_trends_solo : get_health_trends (.ok soloRows) =
    .ok ⟨soloRows, [], [], 1⟩ := by
  have h : classifyDataset (some "solo") soloRows = .ok .stable := by
    simp [classifyDataset, soloRows]
  simp only [get_health_trends, ev_group_solo]
  simp [classifyAll, h]

theorem ev_group_c10 : groupByDataset c10Rows =
    [(some "up", upRows), (some "down", downRows)] := by
  simp [groupByDataset, c10Rows, upRows, downRows, mkTrendRow, addRow]

theorem ev_ra_up : recentAvg upRows = 9 := by
  simp [recentAvg, upRows, mkTrendRow]
  norm_num

theorem ev_oa_up : olderAvg upRows = 1 := by
  simp [olderAvg, upRows, mkTrendRow]

theorem ev_classify_up : classifyDataset (some "up") upRows =
    .ok (.worse ⟨some "up", 9, 1, 800⟩) := by
  have h1 : pyRound 2 (9 : ℚ) = 9 := by
    rw [pyRound_lt 2 9 900 (by norm_num) (by norm_num)]; norm_num
  have h2 : pyRound 2 (1 : ℚ) = 1 := by
    rw [pyRound_lt 2 1 100 (by norm_num) (by norm_num)]; norm_num
  have h3 : pyRound 1 ((9 - 1) / 1 * 100 : ℚ) = 800 := by
    rw [pyRound_lt 1 ((9 - 1) / 1 * 100 : ℚ) 8000 (by norm_num) (by norm_num)]; norm_num
  have h3b : pyRound 1 (800 : ℚ) = 800 := by
    rw [pyRound_lt 1 (800 : ℚ) 8000 (by norm_num) (by norm_num)]; norm_num
  simp only [classifyDataset]
  rw [if_pos (show 2 ≤ upRows.length by norm_num [upRows])]
  rw [ev_ra_up, ev_oa_up]
  norm_num [h1, h2, h3, h3b]

theorem ev_ra_down : recentAvg downRows = 1 := by
  simp [recentAvg, downRows, mkTrendRow]
  norm_num

theorem ev_oa_down : olderAvg downRows = 10 := by
  simp [olderAvg, downRows, mkTrendRow]

theorem ev_classify_down : classifyDataset (some "down") downRows =
    .ok (.better ⟨some "down", 1, 10, -90⟩) := by
  have h1 : pyRound 2 (1 : ℚ) = 1 := by
    rw [pyRound_lt 2 1 100 (by norm_num) (by norm_num)]; norm_num
  have h2 : pyRound 2 (10 : ℚ) = 10 := by
    rw [pyRound_lt 2 10 1000 (by norm_num) (by norm_num)]; norm_num
  have h3 : pyRound 1 ((1 - 10) / 10 * 100 : ℚ) = -90 := by
    rw [pyRound_lt 1 ((1 - 10) / 10 * 100 : ℚ) (-900) (by norm_num) (by norm_num)]
    norm_num
  have h3b : pyRound 1 (-90 : ℚ) = -90 := by
    rw [pyRound_lt 1 (-90 : ℚ) (-900) (by norm_num) (by norm_num)]; norm_num
  simp only [classifyDataset]
  rw [if_pos (show 2 ≤ downRows.length by norm_num [downRows])]
  rw [ev_ra_down, ev_oa_down]
  norm_num [h1, h2, h3, h3b]

theorem ev_trends_c10 : get_health_trends (.ok c10Rows) =
    .ok ⟨c10Rows, [⟨some "up", 9, 1, 800⟩], [⟨some "down", 1, 10, -90⟩], 2⟩ := by
  simp only [get_health_trends, ev_group_c10]
  simp [classifyAll, ev_classify_up, ev_classify_down]

theorem ev_check : check_health_dataset 1 [exRowA] = [toReport exRowA] := by
  have hf : List.filter (fun r => decide ((1:ℚ) ≤ r.hours_silent)) [exRowA] =
      [exRowA] := by
    simp [List.filter_cons, exRowA]
  simp [check_health_dataset, hf, sortSilentDesc, insertDesc]

/-- C2 (amended): for every dataset classified with at least 2 buckets and
`older_avg ≠ 0`, classification is first-match-wins:
`recent_avg > older_avg * 1.5` gives direction worse, else
`recent_avg < older_avg * 0.5` gives better, else stable; in the worse and
better cases `change_percent` is `(recent_avg - older_avg) / older_avg *
100` rounded to 1 decimal (Python `round(x, 1)`, half-to-even).  In
particular with `older_avg = 10`, `recent_avg = 15.0001` is classified
worse and `recent_avg = 14.999` is stable. -/
theorem C2_trend_classification (ds : Option String) (trends : List TrendRow)
    (h2 : 2 ≤ trends.length) (h0 : olderAvg trends ≠ 0) :
    (olderAvg trends * 1.5 < recentAvg trends →
      classifyDataset ds trends = .ok (.worse
        ⟨ds, pyRound 2 (recentAvg trends), pyRound 2 (olderAvg trends),
         pyRound 1 ((recentAvg trends - olderAvg trends) / olderAvg trends * 100)⟩)) ∧
    (¬ olderAvg trends * 1.5 < recentAvg trends →
      recentAvg trends < olderAvg trends * 0.5 →
      classifyDataset ds trends = .ok (.better
        ⟨ds, pyRound 2 (recentAvg trends), pyRound 2 (olderAvg trends),
         pyRound 1 ((recentAvg trends - olderAvg trends) / olderAvg trends * 100)⟩)) ∧
    (¬ olderAvg trends * 1.5 < recentAvg trends →
      ¬ recentAvg trends < olderAvg trends * 0.5 →
      classifyDataset ds trends = .ok .stable) ∧
    classifyDataset (some "w") boundaryWorseRows =
      .ok (.worse ⟨some "w", 15, 10, 50⟩) ∧
    classifyDataset (some "w") boundaryStableRows = .ok .stable := by
  refine ⟨?_, ?_, ?_, ev_classify_bw, ev_classify_bs⟩
  · intro hw
    simp only [classifyDataset, if_pos h2, if_pos hw, if_neg h0]
  · intro hnw hb
    simp only [classifyDataset, if_pos h2, if_neg hnw, if_pos hb, if_neg h0]
  · intro hnw hnb
    simp only [classifyDataset, if_pos h2, if_neg hnw, if_neg hnb]

/-- Witness for C2 at the `boundaryWorseRows` input. -/
theorem C2_witness :
    2 ≤ boundaryWorseRows.length ∧ olderAvg boundaryWorseRows ≠ 0 ∧
    ((olderAvg boundaryWorseRows * 1.5 < recentAvg boundaryWorseRows →
      classifyDataset (some "w") boundaryWorseRows = .ok (.worse
        ⟨some "w", pyRound 2 (recentAvg boundaryWorseRows),
         pyRound 2 (olderAvg boundaryWorseRows),
         pyRound 1 ((recentAvg boundaryWorseRows - olderAvg boundaryWorseRows) /
           olderAvg boundaryWorseRows * 100)⟩)) ∧
    (¬ olderAvg boundaryWorseRows * 1.5 < recentAvg boundaryWorseRows →
      recentAvg boundaryWorseRows < olderAvg boundaryWorseRows * 0.5 →
      classifyDataset (some "w") boundaryWorseRows = .ok (.better
        ⟨some "w", pyRound 2 (recentAvg boundaryWorseRows),
         pyRound 2 (olderAvg boundaryWorseRows),
         pyRound 1 ((recentAvg boundaryWorseRows - olderAvg boundaryWorseRows) /
           olderAvg boundaryWorseRows * 100)⟩)) ∧
    (¬ olderAvg boundaryWorseRows * 1.5 < recentAvg boundaryWorseRows →
      ¬ recentAvg boundaryWorseRows < olderAvg boundaryWorseRows * 0.5 →
      classifyDataset (some "w") boundaryWorseRows = .ok .stable) ∧
    classifyDataset (some "w") boundaryWorseRows =
      .ok (.worse ⟨some "w", 15, 10, 50⟩) ∧
    classifyDataset (some "w") boundaryStableRows = .ok .stable) :=
  ⟨by norm_num [boundaryWorseRows], by rw [ev_oa_bw]; norm_num,
   C2_trend_classification (some "w") boundaryWorseRows
     (by norm_num [boundaryWorseRows]) (by rw [ev_oa_bw]; norm_num)⟩

/-- C2 counterexample to the unrounded change_percent: at `c2Rows`
(`older_avg = 3`, `recent_avg = 10`) the entry's `change_percent` is the
rounded 233.3, not the exact `(recent_avg - older_avg) / older_avg * 100 =
700/3`. -/
theorem C2_counterexample :
    classifyDataset (some "d") c2Rows =
      .ok (.worse ⟨some "d", 10, 3, 2333/10⟩) ∧
    (2333 : ℚ)/10 ≠
      (recentAvg c2Rows - olderAvg c2Rows) / olderAvg c2Rows * 100 := by
  refine ⟨ev_classify_c2, ?_⟩
  rw [ev_ra_c2, ev_oa_c2]
  norm_num

/-- C3 (amended): a dataset group with fewer than 2 hour buckets is
excluded from both trending lists while the returned `dataset_count`
still counts every group (datasets with 2 or 3 buckets and a positive
recent average instead abort the whole call with a ZeroDivisionError, see
the counterexample). -/
theorem C3_insufficient_history (rows : List TrendRow) (out : TrendsOutput)
    (ds : Option String) (trends : List TrendRow)
    (hok : get_health_trends (.ok rows) = .ok out)
    (hmem : (ds, trends) ∈ groupByDataset rows)
    (hlen : trends.length < 2) :
    (∀ e ∈ out.trending_worse, e.dataset ≠ ds) ∧
    (∀ e ∈ out.trending_better, e.dataset ≠ ds) ∧
    out.dataset_count = (groupByDataset rows).length := by
  obtain ⟨hca, _, hcount⟩ := get_health_trends_inv rows out hok
  refine ⟨?_, ?_, hcount⟩
  · intro e he heq
    obtain ⟨p, hp, hpd, hplen⟩ := classifyAll_entry_trace _ _ _ hca e (.inl he)
    have hpds : p.1 = ds := hpd.symm.trans heq
    have hp2 : (ds, p.2) ∈ groupByDataset rows := by
      rw [← hpds, Prod.mk.eta]
      exact hp
    have hsnd : p.2 = trends :=
      nodup_keys_snd_eq (groupByDataset_keys_nodup rows) hp2 hmem
    rw [hsnd] at hplen
    omega
  · intro e he heq
    obtain ⟨p, hp, hpd, hplen⟩ := classifyAll_entry_trace _ _ _ hca e (.inr he)
    have hpds : p.1 = ds := hpd.symm.trans heq
    have hp2 : (ds, p.2) ∈ groupByDataset rows := by
      rw [← hpds, Prod.mk.eta]
      exact hp
    have hsnd : p.2 = trends :=
      nodup_keys_snd_eq (groupByDataset_keys_nodup rows) hp2 hmem
    rw [hsnd] at hplen
    omega

/-- Witness for C3 at the single-bucket dataset `soloRows`. -/
theorem C3_witness :
    get_health_trends (.ok soloRows) =
      .ok ⟨soloRows, [], [], 1⟩ ∧
    (some "solo", soloRows) ∈ groupByDataset soloRows ∧
    soloRows.length < 2 ∧
    ((∀ e ∈ (TrendsOutput.mk soloRows [] [] 1).trending_worse,
        e.dataset ≠ some "solo") ∧
     (∀ e ∈ (TrendsOutput.mk soloRows [] [] 1).trending_better,
        e.dataset ≠ some "solo") ∧
     (TrendsOutput.mk soloRows [] [] 1).dataset_count =
       (groupByDataset soloRows).length) :=
  ⟨ev_trends_solo,
   by rw [ev_group_solo]; exact List.mem_cons_self _ _,
   by norm_num [soloRows],
   C3_insufficient_history soloRows ⟨soloRows, [], [], 1⟩ (some "solo") soloRows
     ev_trends_solo (by rw [ev_group_solo]; exact List.mem_cons_self _ _)
     (by norm_num [soloRows])⟩

/-- C3 counterexample to the claim for "fewer than 4 buckets": `c3Rows`
is a single dataset with 2 buckets ([2, 4]); instead of excluding it and
counting it in `dataset_count`, the call aborts with a ZeroDivisionError
(empty older window makes `older_avg = 0` and the worse branch divides by
it), so no output counts the dataset at all. -/
theorem C3_counterexample :
    groupByDataset c3Rows = [(some "r", c3Rows)] ∧
    c3Rows.length < 4 ∧
    get_health_trends (.ok c3Rows) =
      .error "Error analyzing trends: float division by zero" :=
  ⟨ev_group_c3, by norm_num [c3Rows], ev_trends_c3⟩

/-- C4: the division is not guarded: at `c4Rows` (one dataset, two
buckets of average 1 each) `older_avg = 0` while `recent_avg = 1 > 0`, so
the worse branch evaluates `(recent_avg - older_avg) / older_avg` with a
zero divisor, the ZeroDivisionError propagates to the `except` handler,
and the whole call ends in `return_error` instead of a guarded
classification. -/
theorem C4_zero_division_unguarded :
    olderAvg c4Rows = 0 ∧ recentAvg c4Rows = 1 ∧
    get_health_trends (.ok c4Rows) =
      .error "Error analyzing trends: float division by zero" :=
  ⟨ev_oa_c4, ev_ra_c4, ev_trends_c4⟩

/-- C9: every dataset identifier in a derived output traces back to the
`dataset_name` of some input record: each silent report's `dataset`
field, each trending entry's `dataset` field, and each key of the
per-dataset grouping equals the `dataset_name` of a record of the
corresponding input stream. -/
theorem C9_identifiers_trace (θ : ℚ) (rows : List HealthRow)
    (rep : SilentDatasetReport) (hrep : rep ∈ check_health_dataset θ rows)
    (trows : List TrendRow) (tout : TrendsOutput)
    (htok : get_health_trends (.ok trows) = .ok tout) :
    (∃ r ∈ rows, rep.dataset = r.dataset_name) ∧
    (∀ e ∈ tout.trending_worse, ∃ r ∈ trows, e.dataset = r.dataset_name) ∧
    (∀ e ∈ tout.trending_better, ∃ r ∈ trows, e.dataset = r.dataset_name) ∧
    (∀ p ∈ groupByDataset trows, ∃ r ∈ trows, p.1 = r.dataset_name) := by
  obtain ⟨hca, _, _⟩ := get_health_trends_inv trows tout htok
  refine ⟨?_, ?_, ?_, groupByDataset_key_trace trows⟩
  · obtain ⟨r, hr, hrep2⟩ := List.mem_map.mp hrep
    have hr2 : r ∈ rows.filter (fun s => θ ≤ s.hours_silent) :=
      (sortSilentDesc_perm _).mem_iff.mp hr
    exact ⟨r, List.mem_of_mem_filter hr2, by rw [← hrep2]; rfl⟩
  · intro e he
    obtain ⟨p, hp, hpd, _⟩ := classifyAll_entry_trace _ _ _ hca e (.inl he)
    obtain ⟨r, hr, hre⟩ := groupByDataset_key_trace trows p hp
    exact ⟨r, hr, hpd.trans hre⟩
  · intro e he
    obtain ⟨p, hp, hpd, _⟩ := classifyAll_entry_trace _ _ _ hca e (.inr he)
    obtain ⟨r, hr, hre⟩ := groupByDataset_key_trace trows p hp
    exact ⟨r, hr, hpd.trans hre⟩

/-- Witness for C9 at concrete silent-check and trend inputs. -/
theorem C9_witness :
    toReport exRowA ∈ check_health_dataset 1 [exRowA] ∧
    get_health_trends (.ok soloRows) = .ok ⟨soloRows, [], [], 1⟩ ∧
    ((∃ r ∈ [exRowA], (toReport exRowA).dataset = r.dataset_name) ∧
     (∀ e ∈ (TrendsOutput.mk soloRows [] [] 1).trending_worse,
        ∃ r ∈ soloRows, e.dataset = r.dataset_name) ∧
     (∀ e ∈ (TrendsOutput.mk soloRows [] [] 1).trending_better,
        ∃ r ∈ soloRows, e.dataset = r.dataset_name) ∧
     (∀ p ∈ groupByDataset soloRows, ∃ r ∈ soloRows, p.1 = r.dataset_name)) :=
  ⟨by rw [ev_check]; exact List.mem_cons_self _ _,
   ev_trends_solo,
   C9_identifiers_trace 1 [exRowA] (toReport exRowA)
     (by rw [ev_check]; exact List.mem_cons_self _ _)
     soloRows ⟨soloRows, [], [], 1⟩ ev_trends_solo⟩

/-- C10: whenever `get_health_trends` returns an output, the
`trending_worse` and `trending_better` lists are disjoint on dataset
identifiers and each dataset contributes at most one entry to each
list. -/
theorem C10_trending_disjoint (rows : List TrendRow) (out : TrendsOutput)
    (hok : get_health_trends (.ok rows) = .ok out) :
    (∀ e ∈ out.trending_worse, ∀ f ∈ out.trending_better,
       e.dataset ≠ f.dataset) ∧
    (out.trending_worse.map TrendEntry.dataset).Nodup ∧
    (out.trending_better.map TrendEntry.dataset).Nodup := by
  obtain ⟨hca, _, _⟩ := get_health_trends_inv rows out hok
  have hnd := classifyAll_keys_nodup _ (groupByDataset_keys_nodup rows) _ _ hca
  rw [List.nodup_append] at hnd
  obtain ⟨h1, h2, h3⟩ := hnd
  refine ⟨?_, h1, h2⟩
  intro e he f hf heq
  exact h3 (List.mem_map_of_mem _ he) (heq ▸ List.mem_map_of_mem _ hf)

/-- Witness for C10 at `c10Rows`, where one dataset trends worse and the
other trends better. -/
theorem C10_witness :
    get_health_trends (.ok c10Rows) =
      .ok ⟨c10Rows, [⟨some "up", 9, 1, 800⟩], [⟨some "down", 1, 10, -90⟩], 2⟩ ∧
    ((∀ e ∈ (TrendsOutput.mk c10Rows [⟨some "up", 9, 1, 800⟩]
          [⟨some "down", 1, 10, -90⟩] 2).trending_worse,
        ∀ f ∈ (TrendsOutput.mk c10Rows [⟨some "up", 9, 1, 800⟩]
          [⟨some "down", 1, 10, -90⟩] 2).trending_better,
        e.dataset ≠ f.dataset) ∧
     ((TrendsOutput.mk c10Rows [⟨some "up", 9, 1, 800⟩]
        [⟨some "down", 1, 10, -90⟩] 2).trending_worse.map TrendEntry.dataset).Nodup ∧
     ((TrendsOutput.mk c10Rows [⟨some "up", 9, 1, 800⟩]
        [⟨some "down", 1, 10, -90⟩] 2).trending_better.map TrendEntry.dataset).Nodup) :=
  ⟨ev_trends_c10,
   C10_trending_disjoint c10Rows
     ⟨c10Rows, [⟨some "up", 9, 1, 800⟩], [⟨some "down", 1, 10, -90⟩], 2⟩
     ev_trends_c10⟩

end XSIAM
